import Mathlib

/-!
Verification of the lobby/membership core of `src/app/sodabot.py`.

The persistent store (sqlite tables `lobbies` and `lobby_members`) is
embedded as a pair of lists; each `db_*` function below is a direct
translation of the python function of the same name.  The `ORDER BY`
clauses of the listing queries affect presentation order only and are
not reproduced; a table is modelled as the list of its rows in
insertion order.

The interaction handlers of `LobbyView` and `JoinSelectionView` are
embedded as pure state transformers on the store: each handler takes
the store, the target lobby message id and the acting user id, and
returns the new store together with an outcome that records which
branch of the handler ran (the ephemeral Korean messages of the
rejection branches are recovered by the `*_message` functions).
External chat-platform calls (message fetch/edit) are modelled by
boolean oracles, with a fetch failure yielding `none` (the python
`fetch_lobby_message` swallows every exception and returns `None`)
and an edit failure yielding an error that each caller catches.
-/

/-- Row of the `lobbies` table (schema in `init_db`). -/
structure Lobby where
  lobby_message_id : Nat
  guild_id : Nat
  channel_id : Nat
  forum_post_id : Option Nat
  host_id : Nat
  host_name : Option String
  title : String
  capacity : Nat
  map_name : String
  start_at : String
  status : String
  created_at : String
deriving DecidableEq, Repr

/-- Row of the `lobby_members` table (schema in `init_db`). -/
structure MemberRow where
  lobby_message_id : Nat
  user_id : Nat
  position1 : Option String
  position2 : Option String
  tier : Option String
  joined_at : String
deriving DecidableEq, Repr

/-- The persistent store: the two tables of `init_db`. -/
structure DB where
  lobbies : List Lobby
  members : List MemberRow
deriving DecidableEq, Repr

/-- `db_get_lobby`: SELECT * FROM lobbies WHERE lobby_message_id = ?. -/
def db_get_lobby (db : DB) (lid : Nat) : Option Lobby :=
  db.lobbies.find? (fun l => l.lobby_message_id == lid)

/-- `db_update_lobby_status`: UPDATE lobbies SET status = ? WHERE lobby_message_id = ?. -/
def db_update_lobby_status (db : DB) (lid : Nat) (status : String) : DB :=
  { db with lobbies := db.lobbies.map (fun l =>
      if l.lobby_message_id == lid then { l with status := status } else l) }

/-- `db_count_members`: SELECT COUNT(*) FROM lobby_members WHERE lobby_message_id = ?. -/
def db_count_members (db : DB) (lid : Nat) : Nat :=
  (db.members.filter (fun m => m.lobby_message_id == lid)).length

/-- `db_is_member`: SELECT 1 FROM lobby_members WHERE lobby_message_id = ? AND user_id = ?. -/
def db_is_member (db : DB) (lid uid : Nat) : Bool :=
  db.members.any (fun m => m.lobby_message_id == lid && m.user_id == uid)

/-- `db_try_add_member`: the BEGIN IMMEDIATE transaction.  Membership check,
then count-against-capacity check, then conditional insert, all in one
serialized unit; returns the (status, count) pair of the python function
together with the new store.  `now` stands for `iso_kst(now_kst())`. -/
def db_try_add_member (db : DB) (lid uid : Nat)
    (position1 position2 tier : Option String) (capacity : Nat) (now : String) :
    DB × String × Nat :=
  if db_is_member db lid uid then
    (db, "already", db_count_members db lid)
  else
    let current_count := db_count_members db lid
    if current_count ≥ capacity then
      (db, "full", current_count)
    else
      ({ db with members :=
          db.members ++ [⟨lid, uid, position1, position2, tier, now⟩] },
       "added", current_count + 1)

/-- `db_remove_member`: DELETE FROM lobby_members WHERE lobby_message_id = ?
AND user_id = ?; returns the deleted row count. -/
def db_remove_member (db : DB) (lid uid : Nat) : DB × Nat :=
  let remaining := db.members.filter
    (fun m => !(m.lobby_message_id == lid && m.user_id == uid))
  ({ db with members := remaining }, db.members.length - remaining.length)

/-- `db_clear_all_members`: DELETE FROM lobby_members. -/
def db_clear_all_members (db : DB) : DB :=
  { db with members := [] }

/-- `db_list_active_lobbies`: SELECT * FROM lobbies WHERE status IN
('open','closed','started'). -/
def db_list_active_lobbies (db : DB) : List Lobby :=
  db.lobbies.filter (fun l =>
    l.status == "open" || l.status == "closed" || l.status == "started")

/-- `db_list_open_lobbies`: SELECT * FROM lobbies WHERE status = 'open'. -/
def db_list_open_lobbies (db : DB) : List Lobby :=
  db.lobbies.filter (fun l => l.status == "open")

/-- `db_list_all_lobbies`: SELECT * FROM lobbies. -/
def db_list_all_lobbies (db : DB) : List Lobby :=
  db.lobbies

/-- `db_create_lobby`: INSERT INTO lobbies; `created_at` stands for
`iso_kst(now_kst())`. -/
def db_create_lobby (db : DB) (lobby_message_id guild_id channel_id : Nat)
    (host_id : Nat) (host_name : Option String) (title : String) (capacity : Nat)
    (map_name start_at_iso : String) (forum_post_id : Option Nat)
    (status : String) (created_at : String) : DB :=
  { db with lobbies := db.lobbies ++
      [⟨lobby_message_id, guild_id, channel_id, forum_post_id, host_id, host_name,
        title, capacity, map_name, start_at_iso, status, created_at⟩] }

/-- `LobbyView.is_host`: `interaction.user.id == int(lobby["host_id"])`. -/
def is_host (actor : Nat) (lobby : Lobby) : Bool :=
  actor == lobby.host_id

/-- Branch taken by a join handler (`LobbyView.join_button` or
`JoinSelectionView.confirm`). -/
inductive JoinOutcome
  | noLobby
  | notOpen
  | notReady
  | selectionShown
  | alreadyMember
  | lobbyFull
  | joined (count : Nat)
deriving DecidableEq, Repr

/-- `LobbyView.join_button`.  For non-협곡 maps the member is added directly
with NULL position/tier and the lobby auto-closes on reaching capacity; for
소환사의 협곡 the handler only opens the selection UI (no store change). -/
def join_button (db : DB) (lid uid : Nat) (now : String) : DB × JoinOutcome :=
  match db_get_lobby db lid with
  | none => (db, .noLobby)
  | some lobby =>
    if lobby.status ≠ "open" then (db, .notOpen)
    else if lobby.map_name ≠ "소환사의 협곡" then
      let r := db_try_add_member db lid uid none none none lobby.capacity now
      if r.2.1 = "already" then (r.1, .alreadyMember)
      else if r.2.1 = "full" then (r.1, .lobbyFull)
      else
        let db2 := if r.2.2 ≥ lobby.capacity
          then db_update_lobby_status r.1 lid "closed" else r.1
        (db2, .joined r.2.2)
    else (db, .selectionShown)

/-- `JoinSelectionView.confirm`: the 협곡 join path.  `selected_tier` and
`selected_position` mirror the view state; `ready()` demands both. -/
def join_selection_confirm (db : DB) (lid uid : Nat)
    (selected_tier : Option String) (selected_position : Option (String × String))
    (now : String) : DB × JoinOutcome :=
  match db_get_lobby db lid with
  | none => (db, .noLobby)
  | some lobby =>
    if lobby.status ≠ "open" then (db, .notOpen)
    else
      match selected_tier, selected_position with
      | some tier, some pos =>
        let r := db_try_add_member db lid uid (some pos.1) (some pos.2) (some tier)
          lobby.capacity now
        if r.2.1 = "already" then (r.1, .alreadyMember)
        else if r.2.1 = "full" then (r.1, .lobbyFull)
        else
          let db2 := if r.2.2 ≥ lobby.capacity
            then db_update_lobby_status r.1 lid "closed" else r.1
          (db2, .joined r.2.2)
      | _, _ => (db, .notReady)

/-- Branch taken by `LobbyView.leave_button`. -/
inductive LeaveOutcome
  | noLobby
  | notOpen
  | notMember
  | removed
deriving DecidableEq, Repr

/-- `LobbyView.leave_button`. -/
def leave_button (db : DB) (lid uid : Nat) : DB × LeaveOutcome :=
  match db_get_lobby db lid with
  | none => (db, .noLobby)
  | some lobby =>
    if lobby.status ≠ "open" then (db, .notOpen)
    else if !(db_is_member db lid uid) then (db, .notMember)
    else ((db_remove_member db lid uid).1, .removed)

/-- Branch taken by a host-only handler (`close_button`, `start_button`,
`cancel_button`). -/
inductive HostOutcome
  | noLobby
  | notHost
  | wrongStatus
  | done
deriving DecidableEq, Repr

/-- `LobbyView.close_button`: host-only, rejected unless status is open. -/
def close_button (db : DB) (lid actor : Nat) : DB × HostOutcome :=
  match db_get_lobby db lid with
  | none => (db, .noLobby)
  | some lobby =>
    if !(is_host actor lobby) then (db, .notHost)
    else if lobby.status ≠ "open" then (db, .wrongStatus)
    else (db_update_lobby_status db lid "closed", .done)

/-- `LobbyView.start_button`: host-only; the only status guard in the source
is `lobby["status"] == "started"`. -/
def start_button (db : DB) (lid actor : Nat) : DB × HostOutcome :=
  match db_get_lobby db lid with
  | none => (db, .noLobby)
  | some lobby =>
    if !(is_host actor lobby) then (db, .notHost)
    else if lobby.status = "started" then (db, .wrongStatus)
    else (db_update_lobby_status db lid "started", .done)

/-- `LobbyView.cancel_button`: host-only, no status guard. -/
def cancel_button (db : DB) (lid actor : Nat) : DB × HostOutcome :=
  match db_get_lobby db lid with
  | none => (db, .noLobby)
  | some lobby =>
    if !(is_host actor lobby) then (db, .notHost)
    else (db_update_lobby_status db lid "cancelled", .done)

/-- Ephemeral rejection message of `leave_button` branches. -/
def leave_message : LeaveOutcome → Option String
  | .noLobby => some "로비 정보를 찾을 수 없습니다."
  | .notOpen => some "마감/시작된 로비는 취소할 수 없습니다."
  | .notMember => some "참가 상태가 아닙니다."
  | .removed => none

/-- Ephemeral rejection message of `close_button` branches. -/
def close_message : HostOutcome → Option String
  | .noLobby => some "로비 정보를 찾을 수 없습니다."
  | .notHost => some "호스트만 마감할 수 있습니다."
  | .wrongStatus => some "이미 마감/시작된 로비입니다."
  | .done => none

/-- Ephemeral rejection message of `start_button` branches. -/
def start_message : HostOutcome → Option String
  | .noLobby => some "로비 정보를 찾을 수 없습니다."
  | .notHost => some "호스트만 시작할 수 있습니다."
  | .wrongStatus => some "이미 시작된 로비입니다."
  | .done => none

/-- Ephemeral rejection message of `cancel_button` branches. -/
def cancel_message : HostOutcome → Option String
  | .noLobby => some "로비 정보를 찾을 수 없습니다."
  | .notHost => some "호스트만 취소할 수 있습니다."
  | .wrongStatus => none
  | .done => none

/-- Store effect of `reset_all_lobbies`: early return when no lobby exists,
otherwise clear `lobby_members` and set every lobby status to cancelled
(panel/message refreshes are external and modelled separately). -/
def reset_all_lobbies_db (db : DB) : DB :=
  let ls := db_list_all_lobbies db
  if ls.isEmpty then db
  else
    let db1 := db_clear_all_members db
    ls.foldl (fun acc l => db_update_lobby_status acc l.lobby_message_id "cancelled") db1

/-- `fetch_lobby_message`: every platform error is caught internally and
turned into `None`; modelled by a success oracle on the message id. -/
def fetch_lobby_message (fetchOk : Nat → Bool) (lobby : Lobby) : Option Nat :=
  if fetchOk lobby.lobby_message_id then some lobby.lobby_message_id else none

/-- A `msg.edit` platform call, which may fail; the callers below catch the
failure. -/
def edit_message (editOk : Nat → Bool) (mid : Nat) : Except String Unit :=
  if editOk mid then .ok () else .error "platform error"

/-- The per-lobby task of `reset_all_lobbies`: fetch, then edit with the
buttons removed, the whole body inside try/except.  Returns whether the
lobby message was actually refreshed. -/
def update_single_lobby (fetchOk editOk : Nat → Bool) (lobby : Lobby) : Bool :=
  match fetch_lobby_message fetchOk lobby with
  | none => false
  | some mid =>
    match edit_message editOk mid with
    | .ok _ => true
    | .error _ => false

/-- The `asyncio.gather` fan-out of `reset_all_lobbies` over the lobby list
read at the start of the reset. -/
def reset_message_updates (fetchOk editOk : Nat → Bool) (lobbies : List Lobby) :
    List (Nat × Bool) :=
  lobbies.map (fun l => (l.lobby_message_id, update_single_lobby fetchOk editOk l))

/-- What happened to one lobby inside `restore_lobbies_on_start`. -/
inductive RestoreResult
  | messageMissing
  | refreshedNoView
  | refreshedWithView
  | editFailed
deriving DecidableEq, Repr

/-- Loop body of `restore_lobbies_on_start`: fetch (continue when missing);
a cancelled lobby would be refreshed without a view, any other with the
persistent `LobbyView`; edit failures are caught and swallowed. -/
def restore_one (fetchOk editOk : Nat → Bool) (lobby : Lobby) : RestoreResult :=
  match fetch_lobby_message fetchOk lobby with
  | none => .messageMissing
  | some mid =>
    if lobby.status = "cancelled" then
      match edit_message editOk mid with
      | .ok _ => .refreshedNoView
      | .error _ => .editFailed
    else
      match edit_message editOk mid with
      | .ok _ => .refreshedWithView
      | .error _ => .editFailed

/-- `restore_lobbies_on_start`: iterates over `db_list_active_lobbies` only. -/
def restore_lobbies_on_start (fetchOk editOk : Nat → Bool) (db : DB) :
    List (Nat × RestoreResult) :=
  (db_list_active_lobbies db).map
    (fun l => (l.lobby_message_id, restore_one fetchOk editOk l))

/-- Status of the lobby row a handler would act on. -/
def lobby_status_of (db : DB) (lid : Nat) : Option String :=
  (db_get_lobby db lid).map Lobby.status

/-- A sequence of join attempts against one lobby, each going through the
serialized `db_try_add_member` transaction (BEGIN IMMEDIATE makes concurrent
attempts equivalent to some sequential order). -/
def apply_join_attempts (lid cap : Nat) (now : String) :
    List Nat → DB → DB × List String
  | [], db => (db, [])
  | u :: us, db =>
    let r := db_try_add_member db lid u none none none cap now
    let rest := apply_join_attempts lid cap now us r.1
    (rest.1, r.2.1 :: rest.2)

/-! ### Frame lemmas about the store operations -/

theorem members_update_status (db : DB) (lid : Nat) (s : String) :
    (db_update_lobby_status db lid s).members = db.members := rfl

theorem count_update_status (db : DB) (lid : Nat) (s : String) (lid2 : Nat) :
    db_count_members (db_update_lobby_status db lid s) lid2 = db_count_members db lid2 := rfl

theorem get_members_only (db : DB) (ms : List MemberRow) (lid : Nat) :
    db_get_lobby ⟨db.lobbies, ms⟩ lid = db_get_lobby db lid := rfl

theorem find?_setStatus (ls : List Lobby) (lid : Nat) (s : String) (lid2 : Nat) :
    (ls.map (fun l => if l.lobby_message_id == lid then { l with status := s } else l)).find?
        (fun l => l.lobby_message_id == lid2)
      = if lid2 = lid
        then (ls.find? (fun l => l.lobby_message_id == lid2)).map
          (fun l => { l with status := s })
        else ls.find? (fun l => l.lobby_message_id == lid2) := by
  rw [List.find?_map]
  have hpred : ((fun l : Lobby => l.lobby_message_id == lid2) ∘
      (fun l : Lobby => if l.lobby_message_id == lid then { l with status := s } else l))
      = (fun l : Lobby => l.lobby_message_id == lid2) := by
    funext l
    by_cases h : l.lobby_message_id = lid <;> simp [Function.comp, h]
  rw [hpred]
  cases hf : ls.find? (fun l => l.lobby_message_id == lid2) with
  | none => simp
  | some a =>
    have ha : a.lobby_message_id = lid2 := by simpa using List.find?_some hf
    by_cases h : lid2 = lid
    · subst h
      simp [ha]
    · simp [ha, h]

theorem get_update_status_self (db : DB) (lid : Nat) (s : String) :
    db_get_lobby (db_update_lobby_status db lid s) lid
      = (db_get_lobby db lid).map (fun l => { l with status := s }) := by
  unfold db_get_lobby db_update_lobby_status
  rw [show (({ db with lobbies := db.lobbies.map (fun l =>
      if l.lobby_message_id == lid then { l with status := s } else l) } : DB)).lobbies
      = db.lobbies.map (fun l =>
      if l.lobby_message_id == lid then { l with status := s } else l) from rfl]
  rw [find?_setStatus]
  simp

theorem get_update_status_other (db : DB) (lid : Nat) (s : String) (lid2 : Nat)
    (h : lid2 ≠ lid) :
    db_get_lobby (db_update_lobby_status db lid s) lid2 = db_get_lobby db lid2 := by
  unfold db_get_lobby db_update_lobby_status
  rw [show (({ db with lobbies := db.lobbies.map (fun l =>
      if l.lobby_message_id == lid then { l with status := s } else l) } : DB)).lobbies
      = db.lobbies.map (fun l =>
      if l.lobby_message_id == lid then { l with status := s } else l) from rfl]
  rw [find?_setStatus]
  simp [h]

theorem count_append_row (db : DB) (lid uid : Nat) (p1 p2 t : Option String)
    (now : String) (lid2 : Nat) :
    db_count_members ⟨db.lobbies, db.members ++ [⟨lid, uid, p1, p2, t, now⟩]⟩ lid2
      = db_count_members db lid2 + (if lid = lid2 then 1 else 0) := by
  simp only [db_count_members, List.filter_append, List.length_append]
  by_cases h : lid = lid2 <;> simp [h]

theorem is_member_append_row (db : DB) (lid uid : Nat) (p1 p2 t : Option String)
    (now : String) (lid2 v : Nat) :
    db_is_member ⟨db.lobbies, db.members ++ [⟨lid, uid, p1, p2, t, now⟩]⟩ lid2 v
      = (db_is_member db lid2 v || ((lid == lid2) && (uid == v))) := by
  simp [db_is_member, List.any_append]

theorem is_member_eq_false_of_count_zero (db : DB) (lid uid : Nat)
    (h : db_count_members db lid = 0) : db_is_member db lid uid = false := by
  unfold db_count_members at h
  rw [List.length_eq_zero, List.filter_eq_nil_iff] at h
  unfold db_is_member
  rw [List.any_eq_false]
  intro m hm
  have hl := h m hm
  simp only [Bool.and_eq_true, not_and]
  intro he
  exact absurd he hl

theorem try_add_of_member (db : DB) (lid uid : Nat) (p1 p2 t : Option String)
    (cap : Nat) (now : String) (h : db_is_member db lid uid = true) :
    db_try_add_member db lid uid p1 p2 t cap now = (db, "already", db_count_members db lid) := by
  simp [db_try_add_member, h]

theorem try_add_full (db : DB) (lid uid : Nat) (p1 p2 t : Option String)
    (cap : Nat) (now : String) (h : db_is_member db lid uid = false)
    (hc : cap ≤ db_count_members db lid) :
    db_try_add_member db lid uid p1 p2 t cap now = (db, "full", db_count_members db lid) := by
  simp [db_try_add_member, h, hc]

theorem try_add_added (db : DB) (lid uid : Nat) (p1 p2 t : Option String)
    (cap : Nat) (now : String) (h : db_is_member db lid uid = false)
    (hc : db_count_members db lid < cap) :
    db_try_add_member db lid uid p1 p2 t cap now
      = (⟨db.lobbies, db.members ++ [⟨lid, uid, p1, p2, t, now⟩]⟩,
         "added", db_count_members db lid + 1) := by
  simp only [db_try_add_member, h, Bool.false_eq_true, if_false, ge_iff_le,
    Nat.not_le.mpr hc, if_neg (Nat.not_le.mpr hc)]

theorem length_filter_filter_le {α : Type} (p q : α → Bool) (l : List α) :
    ((l.filter q).filter p).length ≤ (l.filter p).length :=
  List.Sublist.length_le (List.Sublist.filter p (List.filter_sublist l))

theorem count_remove_le (db : DB) (lid uid lid2 : Nat) :
    db_count_members (db_remove_member db lid uid).1 lid2 ≤ db_count_members db lid2 := by
  unfold db_remove_member db_count_members
  exact length_filter_filter_le _ _ _

/-! ### Sequences of serialized join attempts (claim C1) -/

theorem apply_join_attempts_le (lid cap : Nat) (now : String) :
    ∀ (users : List Nat) (db : DB), db_count_members db lid ≤ cap →
      db_count_members (apply_join_attempts lid cap now users db).1 lid ≤ cap := by
  intro users
  induction users with
  | nil => intro db h; simpa [apply_join_attempts] using h
  | cons u us ih =>
    intro db h
    unfold apply_join_attempts
    cases hm : db_is_member db lid u with
    | true =>
      rw [try_add_of_member db lid u none none none cap now hm]
      exact ih db h
    | false =>
      by_cases hc : db_count_members db lid < cap
      · rw [try_add_added db lid u none none none cap now hm hc]
        apply ih
        rw [count_append_row]
        simp
        omega
      · rw [try_add_full db lid u none none none cap now hm (Nat.not_lt.mp hc)]
        exact ih db h

theorem apply_join_attempts_spec (lid cap : Nat) (now : String) :
    ∀ (users : List Nat) (db : DB), users.Nodup →
      (∀ u ∈ users, db_is_member db lid u = false) →
      db_count_members db lid ≤ cap →
      db_count_members (apply_join_attempts lid cap now users db).1 lid
          = db_count_members db lid + min users.length (cap - db_count_members db lid)
      ∧ (apply_join_attempts lid cap now users db).2.count "added"
          = min users.length (cap - db_count_members db lid)
      ∧ (apply_join_attempts lid cap now users db).2.count "full"
          = users.length - min users.length (cap - db_count_members db lid)
      ∧ (apply_join_attempts lid cap now users db).2.length = users.length := by
  intro users
  induction users with
  | nil =>
    intro db _ _ _
    simp [apply_join_attempts]
  | cons u us ih =>
    intro db hnd hfresh hle
    have hm : db_is_member db lid u = false := hfresh u (by simp)
    have hnd2 := List.nodup_cons.mp hnd
    by_cases hc : db_count_members db lid < cap
    · -- the head attempt is admitted
      unfold apply_join_attempts
      rw [try_add_added db lid u none none none cap now hm hc]
      have hcnt1 : db_count_members
          ⟨db.lobbies, db.members ++ [⟨lid, u, none, none, none, now⟩]⟩ lid
          = db_count_members db lid + 1 := by
        rw [count_append_row]; simp
      have hfresh1 : ∀ v ∈ us,
          db_is_member ⟨db.lobbies, db.members ++ [⟨lid, u, none, none, none, now⟩]⟩ lid v
          = false := by
        intro v hv
        have hne : u ≠ v := by
          intro he; exact hnd2.1 (he ▸ hv)
        rw [is_member_append_row]
        simp [hfresh v (by simp [hv]), hne]
      obtain ⟨ha, hb, hc2, hd⟩ := ih _ hnd2.2 hfresh1 (by omega)
      rw [hcnt1] at ha
      refine ⟨?_, ?_, ?_, ?_⟩
      · rw [ha]; simp only [List.length_cons]; omega
      · rw [List.count_cons, hb]
        have e1 : (("added" : String) == "added") = true := by decide
        rw [e1]
        simp only [List.length_cons, if_true, Bool.false_eq_true, if_false]
        omega
      · rw [List.count_cons, hc2]
        have e1 : (("added" : String) == "full") = false := by decide
        rw [e1]
        simp only [List.length_cons, if_true, Bool.false_eq_true, if_false]
        omega
      · simp [hd]
    · -- the lobby is full: nothing is admitted any more
      have hfull : cap ≤ db_count_members db lid := Nat.not_lt.mp hc
      unfold apply_join_attempts
      rw [try_add_full db lid u none none none cap now hm hfull]
      obtain ⟨ha, hb, hc2, hd⟩ := ih db hnd2.2 (fun v hv => hfresh v (by simp [hv])) hle
      refine ⟨?_, ?_, ?_, ?_⟩
      · rw [ha]; simp only [List.length_cons]; omega
      · rw [List.count_cons, hb]
        have e1 : (("full" : String) == "added") = false := by decide
        rw [e1]
        simp only [List.length_cons, if_true, Bool.false_eq_true, if_false]
        omega
      · rw [List.count_cons, hc2]
        have e1 : (("full" : String) == "full") = true := by decide
        rw [e1]
        simp only [List.length_cons, if_true, Bool.false_eq_true, if_false]
        omega
      · simp [hd]

/-! ### Branch equations of the handlers -/

theorem join_button_eq_noLobby (db : DB) (lid uid : Nat) (now : String)
    (h : db_get_lobby db lid = none) :
    join_button db lid uid now = (db, .noLobby) := by
  unfold join_button; rw [h]

theorem join_button_eq_notOpen (db : DB) (lid uid : Nat) (now : String) (lobby : Lobby)
    (hget : db_get_lobby db lid = some lobby) (hst : lobby.status ≠ "open") :
    join_button db lid uid now = (db, .notOpen) := by
  unfold join_button; rw [hget]; simp [hst]

theorem join_button_eq_selection (db : DB) (lid uid : Nat) (now : String) (lobby : Lobby)
    (hget : db_get_lobby db lid = some lobby) (hst : lobby.status = "open")
    (hmap : lobby.map_name = "소환사의 협곡") :
    join_button db lid uid now = (db, .selectionShown) := by
  unfold join_button; rw [hget]; simp [hst, hmap]

theorem join_button_eq_already (db : DB) (lid uid : Nat) (now : String) (lobby : Lobby)
    (hget : db_get_lobby db lid = some lobby) (hst : lobby.status = "open")
    (hmap : lobby.map_name ≠ "소환사의 협곡") (hm : db_is_member db lid uid = true) :
    join_button db lid uid now = (db, .alreadyMember) := by
  unfold join_button
  rw [hget]
  simp only [hst, ne_eq, not_true_eq_false, if_false, hmap, not_false_iff, if_true,
    try_add_of_member db lid uid none none none lobby.capacity now hm]

theorem join_button_eq_full (db : DB) (lid uid : Nat) (now : String) (lobby : Lobby)
    (hget : db_get_lobby db lid = some lobby) (hst : lobby.status = "open")
    (hmap : lobby.map_name ≠ "소환사의 협곡") (hm : db_is_member db lid uid = false)
    (hc : lobby.capacity ≤ db_count_members db lid) :
    join_button db lid uid now = (db, .lobbyFull) := by
  unfold join_button
  rw [hget]
  simp only [hst, ne_eq, not_true_eq_false, if_false, hmap, not_false_iff, if_true,
    try_add_full db lid uid none none none lobby.capacity now hm hc]
  all_goals simp

theorem join_button_eq_added_close (db : DB) (lid uid : Nat) (now : String) (lobby : Lobby)
    (hget : db_get_lobby db lid = some lobby) (hst : lobby.status = "open")
    (hmap : lobby.map_name ≠ "소환사의 협곡") (hm : db_is_member db lid uid = false)
    (hc : db_count_members db lid < lobby.capacity)
    (hfill : lobby.capacity ≤ db_count_members db lid + 1) :
    join_button db lid uid now
      = (db_update_lobby_status
          ⟨db.lobbies, db.members ++ [⟨lid, uid, none, none, none, now⟩]⟩ lid "closed",
         .joined (db_count_members db lid + 1)) := by
  unfold join_button
  rw [hget]
  simp only [hst, ne_eq, not_true_eq_false, if_false, hmap, not_false_iff, if_true,
    try_add_added db lid uid none none none lobby.capacity now hm hc]
  all_goals simp [hfill]

theorem join_button_eq_added_open (db : DB) (lid uid : Nat) (now : String) (lobby : Lobby)
    (hget : db_get_lobby db lid = some lobby) (hst : lobby.status = "open")
    (hmap : lobby.map_name ≠ "소환사의 협곡") (hm : db_is_member db lid uid = false)
    (hc : db_count_members db lid + 1 < lobby.capacity) :
    join_button db lid uid now
      = (⟨db.lobbies, db.members ++ [⟨lid, uid, none, none, none, now⟩]⟩,
         .joined (db_count_members db lid + 1)) := by
  unfold join_button
  rw [hget]
  simp only [hst, ne_eq, not_true_eq_false, if_false, hmap, not_false_iff, if_true,
    try_add_added db lid uid none none none lobby.capacity now hm (by omega)]
  all_goals simp
  all_goals omega

theorem confirm_eq_noLobby (db : DB) (lid uid : Nat) (tier : Option String)
    (pos : Option (String × String)) (now : String)
    (h : db_get_lobby db lid = none) :
    join_selection_confirm db lid uid tier pos now = (db, .noLobby) := by
  unfold join_selection_confirm; rw [h]

theorem confirm_eq_notOpen (db : DB) (lid uid : Nat) (tier : Option String)
    (pos : Option (String × String)) (now : String) (lobby : Lobby)
    (hget : db_get_lobby db lid = some lobby) (hst : lobby.status ≠ "open") :
    join_selection_confirm db lid uid tier pos now = (db, .notOpen) := by
  unfold join_selection_confirm; rw [hget]; simp [hst]

theorem confirm_eq_notReady_tier (db : DB) (lid uid : Nat)
    (pos : Option (String × String)) (now : String) (lobby : Lobby)
    (hget : db_get_lobby db lid = some lobby) (hst : lobby.status = "open") :
    join_selection_confirm db lid uid none pos now = (db, .notReady) := by
  unfold join_selection_confirm; rw [hget]; simp [hst]

theorem confirm_eq_notReady_pos (db : DB) (lid uid : Nat) (tier : String)
    (now : String) (lobby : Lobby)
    (hget : db_get_lobby db lid = some lobby) (hst : lobby.status = "open") :
    join_selection_confirm db lid uid (some tier) none now = (db, .notReady) := by
  unfold join_selection_confirm; rw [hget]; simp [hst]

theorem confirm_eq_already (db : DB) (lid uid : Nat) (tier : String)
    (pos : String × String) (now : String) (lobby : Lobby)
    (hget : db_get_lobby db lid = some lobby) (hst : lobby.status = "open")
    (hm : db_is_member db lid uid = true) :
    join_selection_confirm db lid uid (some tier) (some pos) now
      = (db, .alreadyMember) := by
  unfold join_selection_confirm
  rw [hget]
  simp only [hst, ne_eq, not_true_eq_false, if_false,
    try_add_of_member db lid uid (some pos.1) (some pos.2) (some tier)
      lobby.capacity now hm]
  all_goals simp

theorem confirm_eq_full (db : DB) (lid uid : Nat) (tier : String)
    (pos : String × String) (now : String) (lobby : Lobby)
    (hget : db_get_lobby db lid = some lobby) (hst : lobby.status = "open")
    (hm : db_is_member db lid uid = false)
    (hc : lobby.capacity ≤ db_count_members db lid) :
    join_selection_confirm db lid uid (some tier) (some pos) now
      = (db, .lobbyFull) := by
  unfold join_selection_confirm
  rw [hget]
  simp only [hst, ne_eq, not_true_eq_false, if_false,
    try_add_full db lid uid (some pos.1) (some pos.2) (some tier)
      lobby.capacity now hm hc]
  all_goals simp

theorem confirm_eq_added_close (db : DB) (lid uid : Nat) (tier : String)
    (pos : String × String) (now : String) (lobby : Lobby)
    (hget : db_get_lobby db lid = some lobby) (hst : lobby.status = "open")
    (hm : db_is_member db lid uid = false)
    (hc : db_count_members db lid < lobby.capacity)
    (hfill : lobby.capacity ≤ db_count_members db lid + 1) :
    join_selection_confirm db lid uid (some tier) (some pos) now
      = (db_update_lobby_status
          ⟨db.lobbies, db.members ++ [⟨lid, uid, some pos.1, some pos.2, some tier, now⟩]⟩
          lid "closed",
         .joined (db_count_members db lid + 1)) := by
  unfold join_selection_confirm
  rw [hget]
  simp only [hst, ne_eq, not_true_eq_false, if_false,
    try_add_added db lid uid (some pos.1) (some pos.2) (some tier)
      lobby.capacity now hm hc]
  all_goals simp [hfill]

theorem confirm_eq_added_open (db : DB) (lid uid : Nat) (tier : String)
    (pos : String × String) (now : String) (lobby : Lobby)
    (hget : db_get_lobby db lid = some lobby) (hst : lobby.status = "open")
    (hm : db_is_member db lid uid = false)
    (hc : db_count_members db lid + 1 < lobby.capacity) :
    join_selection_confirm db lid uid (some tier) (some pos) now
      = (⟨db.lobbies, db.members ++ [⟨lid, uid, some pos.1, some pos.2, some tier, now⟩]⟩,
         .joined (db_count_members db lid + 1)) := by
  unfold join_selection_confirm
  rw [hget]
  simp only [hst, ne_eq, not_true_eq_false, if_false,
    try_add_added db lid uid (some pos.1) (some pos.2) (some tier)
      lobby.capacity now hm (by omega)]
  all_goals simp
  all_goals omega

theorem leave_button_eq_noLobby (db : DB) (lid uid : Nat)
    (h : db_get_lobby db lid = none) :
    leave_button db lid uid = (db, .noLobby) := by
  unfold leave_button; rw [h]

theorem leave_button_eq_notOpen (db : DB) (lid uid : Nat) (lobby : Lobby)
    (hget : db_get_lobby db lid = some lobby) (hst : lobby.status ≠ "open") :
    leave_button db lid uid = (db, .notOpen) := by
  unfold leave_button; rw [hget]; simp [hst]

theorem leave_button_eq_notMember (db : DB) (lid uid : Nat) (lobby : Lobby)
    (hget : db_get_lobby db lid = some lobby) (hst : lobby.status = "open")
    (hm : db_is_member db lid uid = false) :
    leave_button db lid uid = (db, .notMember) := by
  unfold leave_button; rw [hget]; simp [hst, hm]

theorem leave_button_eq_removed (db : DB) (lid uid : Nat) (lobby : Lobby)
    (hget : db_get_lobby db lid = some lobby) (hst : lobby.status = "open")
    (hm : db_is_member db lid uid = true) :
    leave_button db lid uid = ((db_remove_member db lid uid).1, .removed) := by
  unfold leave_button; rw [hget]; simp [hst, hm]

theorem close_button_eq_noLobby (db : DB) (lid actor : Nat)
    (h : db_get_lobby db lid = none) :
    close_button db lid actor = (db, .noLobby) := by
  unfold close_button; rw [h]

theorem close_button_eq_notHost (db : DB) (lid actor : Nat) (lobby : Lobby)
    (hget : db_get_lobby db lid = some lobby) (hh : is_host actor lobby = false) :
    close_button db lid actor = (db, .notHost) := by
  unfold close_button; rw [hget]; simp [hh]

theorem close_button_eq_wrongStatus (db : DB) (lid actor : Nat) (lobby : Lobby)
    (hget : db_get_lobby db lid = some lobby) (hh : is_host actor lobby = true)
    (hst : lobby.status ≠ "open") :
    close_button db lid actor = (db, .wrongStatus) := by
  unfold close_button; rw [hget]; simp [hh, hst]

theorem close_button_eq_done (db : DB) (lid actor : Nat) (lobby : Lobby)
    (hget : db_get_lobby db lid = some lobby) (hh : is_host actor lobby = true)
    (hst : lobby.status = "open") :
    close_button db lid actor = (db_update_lobby_status db lid "closed", .done) := by
  unfold close_button; rw [hget]; simp [hh, hst]

theorem start_button_eq_noLobby (db : DB) (lid actor : Nat)
    (h : db_get_lobby db lid = none) :
    start_button db lid actor = (db, .noLobby) := by
  unfold start_button; rw [h]

theorem start_button_eq_notHost (db : DB) (lid actor : Nat) (lobby : Lobby)
    (hget : db_get_lobby db lid = some lobby) (hh : is_host actor lobby = false) :
    start_button db lid actor = (db, .notHost) := by
  unfold start_button; rw [hget]; simp [hh]

theorem start_button_eq_wrongStatus (db : DB) (lid actor : Nat) (lobby : Lobby)
    (hget : db_get_lobby db lid = some lobby) (hh : is_host actor lobby = true)
    (hst : lobby.status = "started") :
    start_button db lid actor = (db, .wrongStatus) := by
  unfold start_button; rw [hget]; simp [hh, hst]

theorem start_button_eq_done (db : DB) (lid actor : Nat) (lobby : Lobby)
    (hget : db_get_lobby db lid = some lobby) (hh : is_host actor lobby = true)
    (hst : lobby.status ≠ "started") :
    start_button db lid actor = (db_update_lobby_status db lid "started", .done) := by
  unfold start_button; rw [hget]; simp [hh, hst]

theorem cancel_button_eq_noLobby (db : DB) (lid actor : Nat)
    (h : db_get_lobby db lid = none) :
    cancel_button db lid actor = (db, .noLobby) := by
  unfold cancel_button; rw [h]

theorem cancel_button_eq_notHost (db : DB) (lid actor : Nat) (lobby : Lobby)
    (hget : db_get_lobby db lid = some lobby) (hh : is_host actor lobby = false) :
    cancel_button db lid actor = (db, .notHost) := by
  unfold cancel_button; rw [hget]; simp [hh]

theorem cancel_button_eq_done (db : DB) (lid actor : Nat) (lobby : Lobby)
    (hget : db_get_lobby db lid = some lobby) (hh : is_host actor lobby = true) :
    cancel_button db lid actor = (db_update_lobby_status db lid "cancelled", .done) := by
  unfold cancel_button; rw [hget]; simp [hh]

/-! ### Store effect of the bulk reset -/

theorem foldl_cancel_members (todo : List Lobby) : ∀ db : DB,
    (todo.foldl (fun acc l => db_update_lobby_status acc l.lobby_message_id "cancelled") db).members
      = db.members := by
  induction todo with
  | nil => intro db; rfl
  | cons t ts ih => intro db; rw [List.foldl_cons, ih]; rfl

theorem foldl_cancel_lobbies (todo : List Lobby) : ∀ db : DB,
    (todo.foldl (fun acc l => db_update_lobby_status acc l.lobby_message_id "cancelled") db).lobbies
      = db.lobbies.map (fun l =>
          if todo.any (fun t => t.lobby_message_id == l.lobby_message_id)
          then { l with status := "cancelled" } else l) := by
  induction todo with
  | nil =>
    intro db
    simp
  | cons t ts ih =>
    intro db
    rw [List.foldl_cons, ih]
    rw [show (db_update_lobby_status db t.lobby_message_id "cancelled").lobbies
        = db.lobbies.map (fun l => if l.lobby_message_id == t.lobby_message_id
            then { l with status := "cancelled" } else l) from rfl]
    rw [List.map_map]
    apply List.map_congr_left
    intro l _
    by_cases h1 : l.lobby_message_id = t.lobby_message_id
    · by_cases h2 : ts.any (fun x => x.lobby_message_id == l.lobby_message_id) <;>
        simp [Function.comp, h1, h2, List.any_cons]
    · by_cases h2 : ts.any (fun x => x.lobby_message_id == l.lobby_message_id) <;>
        simp [Function.comp, h1, h2, List.any_cons, Ne.symm h1]

theorem reset_db_spec (db : DB) (hne : db.lobbies ≠ []) :
    (reset_all_lobbies_db db).members = []
    ∧ (reset_all_lobbies_db db).lobbies
        = db.lobbies.map (fun l => { l with status := "cancelled" }) := by
  unfold reset_all_lobbies_db db_list_all_lobbies
  rw [if_neg (by simpa using hne)]
  constructor
  · rw [foldl_cancel_members]
    rfl
  · rw [foldl_cancel_lobbies]
    rw [show (db_clear_all_members db).lobbies = db.lobbies from rfl]
    apply List.map_congr_left
    intro l hl
    rw [if_pos]
    exact List.any_eq_true.mpr ⟨l, hl, by simp⟩

theorem reset_db_empty (db : DB) (h : db.lobbies = []) :
    reset_all_lobbies_db db = db := by
  unfold reset_all_lobbies_db db_list_all_lobbies
  rw [if_pos (by simpa using h)]

/-! ### The capacity/auto-close invariant (claim C3) -/

/-- No lobby row found by `db_get_lobby` is still `open` once its membership
count has reached its capacity. -/
def CapacityClosedInv (db : DB) : Prop :=
  ∀ lid lobby, db_get_lobby db lid = some lobby →
    lobby.capacity ≤ db_count_members db lid → lobby.status ≠ "open"

/-- One store mutation performed by the program: an interaction handler run
to completion, the bulk reset, or a lobby creation.  `create_lobby_from_draft`
only stores capacities the modal validated (2..20), with a message id the
platform freshly generated, hence no pre-existing membership rows. -/
inductive Step : DB → DB → Prop
  | join : ∀ db lid uid now, Step db (join_button db lid uid now).1
  | confirm : ∀ db lid uid tier pos now,
      Step db (join_selection_confirm db lid uid tier pos now).1
  | leave : ∀ db lid uid, Step db (leave_button db lid uid).1
  | close : ∀ db lid actor, Step db (close_button db lid actor).1
  | start : ∀ db lid actor, Step db (start_button db lid actor).1
  | cancel : ∀ db lid actor, Step db (cancel_button db lid actor).1
  | reset : ∀ db, Step db (reset_all_lobbies_db db)
  | create : ∀ db lid gid cid hid hname title cap mapn sa fpid created,
      2 ≤ cap → cap ≤ 20 → db_count_members db lid = 0 →
      Step db (db_create_lobby db lid gid cid hid hname title cap mapn sa fpid
        "open" created)

theorem count_append_row_gen (db : DB) (row : MemberRow) (lid2 : Nat) :
    db_count_members ⟨db.lobbies, db.members ++ [row]⟩ lid2
      = db_count_members db lid2 + (if row.lobby_message_id = lid2 then 1 else 0) := by
  simp only [db_count_members, List.filter_append, List.length_append]
  by_cases h : row.lobby_message_id = lid2 <;> simp [h]

theorem inv_update_nonopen (db : DB) (lid : Nat) (s : String) (hs : s ≠ "open")
    (hinv : CapacityClosedInv db) :
    CapacityClosedInv (db_update_lobby_status db lid s) := by
  intro lid2 lobby2 hget2 hcap2
  rw [count_update_status] at hcap2
  by_cases h : lid2 = lid
  · subst h
    rw [get_update_status_self] at hget2
    cases hg : db_get_lobby db lid2 with
    | none => rw [hg] at hget2; simp at hget2
    | some l0 =>
      rw [hg] at hget2
      simp only [Option.map_some', Option.some.injEq] at hget2
      rw [← hget2]
      simpa using hs
  · rw [get_update_status_other db lid s lid2 h] at hget2
    exact hinv lid2 lobby2 hget2 hcap2

theorem inv_after_added_close (db : DB) (lid : Nat) (row : MemberRow)
    (hrow : row.lobby_message_id = lid) (lobby : Lobby)
    (hget : db_get_lobby db lid = some lobby) (hinv : CapacityClosedInv db) :
    CapacityClosedInv
      (db_update_lobby_status ⟨db.lobbies, db.members ++ [row]⟩ lid "closed") := by
  intro lid2 lobby2 hget2 hcap2
  by_cases h : lid2 = lid
  · subst h
    rw [get_update_status_self] at hget2
    rw [show db_get_lobby ⟨db.lobbies, db.members ++ [row]⟩ lid2 = db_get_lobby db lid2
        from rfl, hget] at hget2
    simp only [Option.map_some', Option.some.injEq] at hget2
    rw [← hget2]
    simp
  · rw [get_update_status_other _ _ _ _ h] at hget2
    rw [show db_get_lobby ⟨db.lobbies, db.members ++ [row]⟩ lid2 = db_get_lobby db lid2
        from rfl] at hget2
    rw [count_update_status, count_append_row_gen] at hcap2
    rw [if_neg (by omega)] at hcap2
    exact hinv lid2 lobby2 hget2 (by omega)

theorem inv_after_added_open (db : DB) (lid : Nat) (row : MemberRow)
    (hrow : row.lobby_message_id = lid) (lobby : Lobby)
    (hget : db_get_lobby db lid = some lobby)
    (hlt : db_count_members db lid + 1 < lobby.capacity)
    (hinv : CapacityClosedInv db) :
    CapacityClosedInv (⟨db.lobbies, db.members ++ [row]⟩ : DB) := by
  intro lid2 lobby2 hget2 hcap2
  rw [show db_get_lobby ⟨db.lobbies, db.members ++ [row]⟩ lid2 = db_get_lobby db lid2
      from rfl] at hget2
  rw [count_append_row_gen] at hcap2
  by_cases h : lid2 = lid
  · subst h
    rw [hget] at hget2
    have he : lobby = lobby2 := by simpa using hget2
    rw [if_pos (by omega)] at hcap2
    rw [← he] at hcap2
    omega
  · rw [if_neg (by omega)] at hcap2
    exact hinv lid2 lobby2 hget2 (by omega)

theorem inv_join_button (db : DB) (lid uid : Nat) (now : String)
    (hinv : CapacityClosedInv db) :
    CapacityClosedInv (join_button db lid uid now).1 := by
  cases hget : db_get_lobby db lid with
  | none => rw [join_button_eq_noLobby db lid uid now hget]; exact hinv
  | some lobby =>
    by_cases hst : lobby.status = "open"
    · by_cases hmap : lobby.map_name = "소환사의 협곡"
      · rw [join_button_eq_selection db lid uid now lobby hget hst hmap]; exact hinv
      · cases hm : db_is_member db lid uid with
        | true =>
          rw [join_button_eq_already db lid uid now lobby hget hst hmap hm]; exact hinv
        | false =>
          by_cases hc : lobby.capacity ≤ db_count_members db lid
          · rw [join_button_eq_full db lid uid now lobby hget hst hmap hm hc]; exact hinv
          · by_cases hfill : lobby.capacity ≤ db_count_members db lid + 1
            · rw [join_button_eq_added_close db lid uid now lobby hget hst hmap hm
                (by omega) hfill]
              exact inv_after_added_close db lid _ rfl lobby hget hinv
            · rw [join_button_eq_added_open db lid uid now lobby hget hst hmap hm
                (by omega)]
              exact inv_after_added_open db lid _ rfl lobby hget (by omega) hinv
    · rw [join_button_eq_notOpen db lid uid now lobby hget hst]; exact hinv

theorem inv_confirm (db : DB) (lid uid : Nat) (tier : Option String)
    (pos : Option (String × String)) (now : String)
    (hinv : CapacityClosedInv db) :
    CapacityClosedInv (join_selection_confirm db lid uid tier pos now).1 := by
  cases hget : db_get_lobby db lid with
  | none => rw [confirm_eq_noLobby db lid uid tier pos now hget]; exact hinv
  | some lobby =>
    by_cases hst : lobby.status = "open"
    · cases tier with
      | none => rw [confirm_eq_notReady_tier db lid uid pos now lobby hget hst]; exact hinv
      | some t =>
        cases pos with
        | none => rw [confirm_eq_notReady_pos db lid uid t now lobby hget hst]; exact hinv
        | some p =>
          cases hm : db_is_member db lid uid with
          | true =>
            rw [confirm_eq_already db lid uid t p now lobby hget hst hm]; exact hinv
          | false =>
            by_cases hc : lobby.capacity ≤ db_count_members db lid
            · rw [confirm_eq_full db lid uid t p now lobby hget hst hm hc]; exact hinv
            · by_cases hfill : lobby.capacity ≤ db_count_members db lid + 1
              · rw [confirm_eq_added_close db lid uid t p now lobby hget hst hm
                  (by omega) hfill]
                exact inv_after_added_close db lid _ rfl lobby hget hinv
              · rw [confirm_eq_added_open db lid uid t p now lobby hget hst hm
                  (by omega)]
                exact inv_after_added_open db lid _ rfl lobby hget (by omega) hinv
    · rw [confirm_eq_notOpen db lid uid tier pos now lobby hget hst]; exact hinv

theorem inv_leave_button (db : DB) (lid uid : Nat) (hinv : CapacityClosedInv db) :
    CapacityClosedInv (leave_button db lid uid).1 := by
  cases hget : db_get_lobby db lid with
  | none => rw [leave_button_eq_noLobby db lid uid hget]; exact hinv
  | some lobby =>
    by_cases hst : lobby.status = "open"
    · cases hm : db_is_member db lid uid with
      | false => rw [leave_button_eq_notMember db lid uid lobby hget hst hm]; exact hinv
      | true =>
        rw [leave_button_eq_removed db lid uid lobby hget hst hm]
        intro lid2 lobby2 hget2 hcap2
        rw [show db_get_lobby (db_remove_member db lid uid).1 lid2 = db_get_lobby db lid2
            from rfl] at hget2
        exact hinv lid2 lobby2 hget2
          (le_trans hcap2 (count_remove_le db lid uid lid2))
    · rw [leave_button_eq_notOpen db lid uid lobby hget hst]; exact hinv

theorem inv_close_button (db : DB) (lid actor : Nat) (hinv : CapacityClosedInv db) :
    CapacityClosedInv (close_button db lid actor).1 := by
  cases hget : db_get_lobby db lid with
  | none => rw [close_button_eq_noLobby db lid actor hget]; exact hinv
  | some lobby =>
    cases hh : is_host actor lobby with
    | false => rw [close_button_eq_notHost db lid actor lobby hget hh]; exact hinv
    | true =>
      by_cases hst : lobby.status = "open"
      · rw [close_button_eq_done db lid actor lobby hget hh hst]
        exact inv_update_nonopen db lid "closed" (by simp) hinv
      · rw [close_button_eq_wrongStatus db lid actor lobby hget hh hst]; exact hinv

theorem inv_start_button (db : DB) (lid actor : Nat) (hinv : CapacityClosedInv db) :
    CapacityClosedInv (start_button db lid actor).1 := by
  cases hget : db_get_lobby db lid with
  | none => rw [start_button_eq_noLobby db lid actor hget]; exact hinv
  | some lobby =>
    cases hh : is_host actor lobby with
    | false => rw [start_button_eq_notHost db lid actor lobby hget hh]; exact hinv
    | true =>
      by_cases hst : lobby.status = "started"
      · rw [start_button_eq_wrongStatus db lid actor lobby hget hh hst]; exact hinv
      · rw [start_button_eq_done db lid actor lobby hget hh hst]
        exact inv_update_nonopen db lid "started" (by simp) hinv

theorem inv_cancel_button (db : DB) (lid actor : Nat) (hinv : CapacityClosedInv db) :
    CapacityClosedInv (cancel_button db lid actor).1 := by
  cases hget : db_get_lobby db lid with
  | none => rw [cancel_button_eq_noLobby db lid actor hget]; exact hinv
  | some lobby =>
    cases hh : is_host actor lobby with
    | false => rw [cancel_button_eq_notHost db lid actor lobby hget hh]; exact hinv
    | true =>
      rw [cancel_button_eq_done db lid actor lobby hget hh]
      exact inv_update_nonopen db lid "cancelled" (by simp) hinv

theorem inv_reset (db : DB) (hinv : CapacityClosedInv db) :
    CapacityClosedInv (reset_all_lobbies_db db) := by
  by_cases h : db.lobbies = []
  · rw [reset_db_empty db h]; exact hinv
  · obtain ⟨_, hl⟩ := reset_db_spec db h
    intro lid2 lobby2 hget2 _
    have hmem : lobby2 ∈ (reset_all_lobbies_db db).lobbies :=
      List.mem_of_find?_eq_some hget2
    rw [hl] at hmem
    obtain ⟨l0, _, he⟩ := List.mem_map.mp hmem
    rw [← he]
    simp

theorem inv_create (db : DB) (lid gid cid hid : Nat) (hname : Option String)
    (title : String) (cap : Nat) (mapn sa : String) (fpid : Option Nat)
    (created : String) (h2 : 2 ≤ cap) (h0 : db_count_members db lid = 0)
    (hinv : CapacityClosedInv db) :
    CapacityClosedInv
      (db_create_lobby db lid gid cid hid hname title cap mapn sa fpid
        "open" created) := by
  intro lid2 lobby2 hget2 hcap2
  have hsplit : db_get_lobby
      (db_create_lobby db lid gid cid hid hname title cap mapn sa fpid "open" created) lid2
      = ((db.lobbies.find? (fun l => l.lobby_message_id == lid2)).or
         (([(⟨lid, gid, cid, fpid, hid, hname, title, cap, mapn, sa, "open", created⟩ :
            Lobby)]).find? (fun l => l.lobby_message_id == lid2))) := by
    unfold db_get_lobby db_create_lobby
    rw [List.find?_append]
  rw [hsplit] at hget2
  have hcnt : db_count_members
      (db_create_lobby db lid gid cid hid hname title cap mapn sa fpid "open" created) lid2
      = db_count_members db lid2 := rfl
  rw [hcnt] at hcap2
  cases hf : db.lobbies.find? (fun l => l.lobby_message_id == lid2) with
  | some l0 =>
    rw [hf] at hget2
    rw [show (some l0).or (([(⟨lid, gid, cid, fpid, hid, hname, title, cap, mapn, sa,
        "open", created⟩ : Lobby)]).find? (fun l => l.lobby_message_id == lid2))
        = some l0 from rfl] at hget2
    refine hinv lid2 lobby2 ?_ hcap2
    rw [show db_get_lobby db lid2
      = db.lobbies.find? (fun l => l.lobby_message_id == lid2) from rfl, hf]
    exact hget2
  | none =>
    rw [hf, Option.none_or] at hget2
    by_cases hb : lid = lid2
    · have hone : (([(⟨lid, gid, cid, fpid, hid, hname, title, cap, mapn, sa,
          "open", created⟩ : Lobby)]).find? (fun l => l.lobby_message_id == lid2))
          = some ⟨lid, gid, cid, fpid, hid, hname, title, cap, mapn, sa,
            "open", created⟩ := by
        simp [List.find?, hb]
      rw [hone] at hget2
      have he : lobby2 = ⟨lid, gid, cid, fpid, hid, hname, title, cap, mapn, sa,
          "open", created⟩ := by
        simpa using hget2.symm
      rw [he] at hcap2
      simp only [] at hcap2
      rw [← hb, h0] at hcap2
      simp at hcap2
      omega
    · have hone : (([(⟨lid, gid, cid, fpid, hid, hname, title, cap, mapn, sa,
          "open", created⟩ : Lobby)]).find? (fun l => l.lobby_message_id == lid2))
          = none := by
        have hbb : (lid == lid2) = false := by simp [hb]
        simp [List.find?, hbb]
      rw [hone] at hget2
      exact absurd hget2 (by simp)

theorem inv_step (db db2 : DB) (hinv : CapacityClosedInv db) (hs : Step db db2) :
    CapacityClosedInv db2 := by
  cases hs with
  | join lid uid now => exact inv_join_button db lid uid now hinv
  | confirm lid uid tier pos now => exact inv_confirm db lid uid tier pos now hinv
  | leave lid uid => exact inv_leave_button db lid uid hinv
  | close lid actor => exact inv_close_button db lid actor hinv
  | start lid actor => exact inv_start_button db lid actor hinv
  | cancel lid actor => exact inv_cancel_button db lid actor hinv
  | reset => exact inv_reset db hinv
  | create lid gid cid hid hname title cap mapn sa fpid created h2 h20 h0 =>
    exact inv_create db lid gid cid hid hname title cap mapn sa fpid created h2 h0 hinv

theorem join_button_joined_spec (db : DB) (lid uid : Nat) (now : String)
    (lobby : Lobby) (n : Nat) (hget : db_get_lobby db lid = some lobby)
    (hj : (join_button db lid uid now).2 = .joined n) :
    db_count_members (join_button db lid uid now).1 lid = n
    ∧ (lobby.capacity ≤ n →
        lobby_status_of (join_button db lid uid now).1 lid = some "closed") := by
  by_cases hst : lobby.status = "open"
  case neg =>
    rw [join_button_eq_notOpen db lid uid now lobby hget hst] at hj
    exact absurd hj (by simp)
  case pos =>
  by_cases hmap : lobby.map_name = "소환사의 협곡"
  · rw [join_button_eq_selection db lid uid now lobby hget hst hmap] at hj
    exact absurd hj (by simp)
  · cases hm : db_is_member db lid uid with
    | true =>
      rw [join_button_eq_already db lid uid now lobby hget hst hmap hm] at hj
      exact absurd hj (by simp)
    | false =>
      by_cases hc : lobby.capacity ≤ db_count_members db lid
      · rw [join_button_eq_full db lid uid now lobby hget hst hmap hm hc] at hj
        exact absurd hj (by simp)
      · by_cases hfill : lobby.capacity ≤ db_count_members db lid + 1
        · rw [join_button_eq_added_close db lid uid now lobby hget hst hmap hm
            (by omega) hfill] at hj ⊢
          have hn : n = db_count_members db lid + 1 := by simpa using hj.symm
          constructor
          · rw [count_update_status, count_append_row_gen]
            simp [hn]
          · intro _
            unfold lobby_status_of
            rw [get_update_status_self]
            rw [show db_get_lobby
                ⟨db.lobbies, db.members ++ [⟨lid, uid, none, none, none, now⟩]⟩ lid
                = db_get_lobby db lid from rfl, hget]
            simp
        · rw [join_button_eq_added_open db lid uid now lobby hget hst hmap hm
            (by omega)] at hj ⊢
          have hn : n = db_count_members db lid + 1 := by simpa using hj.symm
          constructor
          · rw [count_append_row_gen]
            simp [hn]
          · intro hcap
            exact absurd hcap (by omega)

theorem confirm_joined_spec (db : DB) (lid uid : Nat) (tier : Option String)
    (pos : Option (String × String)) (now : String)
    (lobby : Lobby) (n : Nat) (hget : db_get_lobby db lid = some lobby)
    (hj : (join_selection_confirm db lid uid tier pos now).2 = .joined n) :
    db_count_members (join_selection_confirm db lid uid tier pos now).1 lid = n
    ∧ (lobby.capacity ≤ n →
        lobby_status_of (join_selection_confirm db lid uid tier pos now).1 lid
          = some "closed") := by
  by_cases hst : lobby.status = "open"
  case neg =>
    rw [confirm_eq_notOpen db lid uid tier pos now lobby hget hst] at hj
    exact absurd hj (by simp)
  case pos =>
  cases tier with
  | none =>
    rw [confirm_eq_notReady_tier db lid uid pos now lobby hget hst] at hj
    exact absurd hj (by simp)
  | some t =>
    cases pos with
    | none =>
      rw [confirm_eq_notReady_pos db lid uid t now lobby hget hst] at hj
      exact absurd hj (by simp)
    | some p =>
      cases hm : db_is_member db lid uid with
      | true =>
        rw [confirm_eq_already db lid uid t p now lobby hget hst hm] at hj
        exact absurd hj (by simp)
      | false =>
        by_cases hc : lobby.capacity ≤ db_count_members db lid
        · rw [confirm_eq_full db lid uid t p now lobby hget hst hm hc] at hj
          exact absurd hj (by simp)
        · by_cases hfill : lobby.capacity ≤ db_count_members db lid + 1
          · rw [confirm_eq_added_close db lid uid t p now lobby hget hst hm
              (by omega) hfill] at hj ⊢
            have hn : n = db_count_members db lid + 1 := by simpa using hj.symm
            constructor
            · rw [count_update_status, count_append_row_gen]
              simp [hn]
            · intro _
              unfold lobby_status_of
              rw [get_update_status_self]
              rw [show db_get_lobby
                  ⟨db.lobbies, db.members ++
                    [⟨lid, uid, some p.1, some p.2, some t, now⟩]⟩ lid
                  = db_get_lobby db lid from rfl, hget]
              simp
          · rw [confirm_eq_added_open db lid uid t p now lobby hget hst hm
              (by omega)] at hj ⊢
            have hn : n = db_count_members db lid + 1 := by simpa using hj.symm
            constructor
            · rw [count_append_row_gen]
              simp [hn]
            · intro hcap
              exact absurd hcap (by omega)

/-! ### Concrete stores used by witnesses and counterexamples -/

/-- A capacity-2 무작위 총력전 lobby hosted by user 10. -/
def exLobby : Lobby :=
  ⟨1, 100, 200, none, 10, some "host", "내전", 2, "무작위 총력전", "2026-01-01T20:00",
   "open", "2026-01-01T10:00"⟩

/-- Open lobby, no members yet. -/
def exDB : DB := ⟨[exLobby], []⟩

/-- Open lobby with one member (user 5). -/
def exDBone : DB := ⟨[exLobby], [⟨1, 5, none, none, none, "t1"⟩]⟩

/-- Open lobby at capacity (users 5 and 6). -/
def exDBfull : DB := ⟨[exLobby], [⟨1, 5, none, none, none, "t1"⟩, ⟨1, 6, none, none, none, "t2"⟩]⟩

/-- Cancelled lobby, no members. -/
def exDBcancelled : DB := ⟨[{ exLobby with status := "cancelled" }], []⟩

/-! ### The claims -/

/-- Claim C1: join attempts serialized through `db_try_add_member` never push
a lobby's membership count past its capacity C; an attempt that finds the
count already at C returns `full` and inserts nothing; and when N distinct
non-member users attempt to join a lobby with no members, exactly min(N, C)
attempts return `added` and the rest return `full`. -/
theorem C1_join_arbitration (db : DB) (lid cap : Nat) (now : String)
    (users : List Nat) (u : Nat) :
    (db_count_members db lid ≤ cap →
      db_count_members (apply_join_attempts lid cap now users db).1 lid ≤ cap)
    ∧ (db_is_member db lid u = false → cap ≤ db_count_members db lid →
        db_try_add_member db lid u none none none cap now
          = (db, "full", db_count_members db lid))
    ∧ (db_count_members db lid = 0 → users.Nodup →
        (apply_join_attempts lid cap now users db).2.count "added"
            = min users.length cap
        ∧ (apply_join_attempts lid cap now users db).2.count "full"
            = users.length - min users.length cap
        ∧ (apply_join_attempts lid cap now users db).2.length = users.length
        ∧ db_count_members (apply_join_attempts lid cap now users db).1 lid
            = min users.length cap) := by
  refine ⟨fun h => apply_join_attempts_le lid cap now users db h,
          fun hm hc => try_add_full db lid u none none none cap now hm hc, ?_⟩
  intro h0 hnd
  have hfresh : ∀ v ∈ users, db_is_member db lid v = false :=
    fun v _ => is_member_eq_false_of_count_zero db lid v h0
  obtain ⟨ha, hb, hc2, hd⟩ :=
    apply_join_attempts_spec lid cap now users db hnd hfresh (by omega)
  rw [h0] at ha hb hc2
  simp only [Nat.sub_zero, Nat.zero_add] at ha hb hc2
  exact ⟨hb, hc2, hd, ha⟩

/-- Witness for C1 at a capacity-2 lobby: users 7, 8, 9 get added, added,
full; user 9 bouncing off the already-full store gets `full` and no insert. -/
theorem C1_join_arbitration_witness :
    db_count_members (apply_join_attempts 1 2 "t" [7, 8, 9] exDB).1 1 ≤ 2
    ∧ db_try_add_member exDBfull 1 9 none none none 2 "t"
        = (exDBfull, "full", db_count_members exDBfull 1)
    ∧ (apply_join_attempts 1 2 "t" [7, 8, 9] exDB).2.count "added" = min 3 2
    ∧ (apply_join_attempts 1 2 "t" [7, 8, 9] exDB).2.count "full" = 3 - min 3 2
    ∧ (apply_join_attempts 1 2 "t" [7, 8, 9] exDB).2.length = 3
    ∧ db_count_members (apply_join_attempts 1 2 "t" [7, 8, 9] exDB).1 1 = min 3 2 := by
  have h1 := C1_join_arbitration exDB 1 2 "t" [7, 8, 9] 7
  have h2 := C1_join_arbitration exDBfull 1 2 "t" [] 9
  obtain ⟨ha, hb, hc, hd⟩ := h1.2.2 (by decide) (by decide)
  exact ⟨h1.1 (by decide), h2.2.1 (by decide) (by decide), ha, hb, hc, hd⟩

/-- Claim C5: a user already recorded as a member gets `already` on a repeat
join attempt; the store, its membership rows and the member count are
unchanged. -/
theorem C5_duplicate_join (db : DB) (lid uid : Nat) (p1 p2 t : Option String)
    (cap : Nat) (now : String) (h : db_is_member db lid uid = true) :
    db_try_add_member db lid uid p1 p2 t cap now
        = (db, "already", db_count_members db lid)
    ∧ (db_try_add_member db lid uid p1 p2 t cap now).1.members = db.members
    ∧ db_count_members (db_try_add_member db lid uid p1 p2 t cap now).1 lid
        = db_count_members db lid := by
  have he := try_add_of_member db lid uid p1 p2 t cap now h
  refine ⟨he, ?_, ?_⟩ <;> rw [he]

/-- Witness for C5: user 5 of `exDBone` rejoins and nothing changes. -/
theorem C5_duplicate_join_witness :
    db_try_add_member exDBone 1 5 none none none 2 "t"
      = (exDBone, "already", 1) := by
  have h := (C5_duplicate_join exDBone 1 5 none none none 2 "t" (by decide)).1
  exact h.trans (by decide)

/-- Claim C6: leave removes the acting user's membership rows only while the
lobby status is `open`; a leave attempt in any other status is rejected with
an ephemeral message and the store is unchanged. -/
theorem C6_leave_only_open (db : DB) (lid uid : Nat) :
    (∀ lobby, db_get_lobby db lid = some lobby → lobby.status ≠ "open" →
       leave_button db lid uid = (db, .notOpen)
       ∧ (leave_message .notOpen).isSome = true)
    ∧ ((leave_button db lid uid).2 ≠ .removed → (leave_button db lid uid).1 = db)
    ∧ ((leave_button db lid uid).2 = .removed →
        lobby_status_of db lid = some "open"
        ∧ (leave_button db lid uid).1.members
            = db.members.filter
                (fun m => !(m.lobby_message_id == lid && m.user_id == uid))
        ∧ (leave_button db lid uid).1.lobbies = db.lobbies) := by
  refine ⟨?_, ?_, ?_⟩
  · intro lobby hget hst
    exact ⟨leave_button_eq_notOpen db lid uid lobby hget hst, rfl⟩
  · intro hne
    cases hget : db_get_lobby db lid with
    | none => rw [leave_button_eq_noLobby db lid uid hget]
    | some lobby =>
      by_cases hst : lobby.status = "open"
      · cases hm : db_is_member db lid uid with
        | false => rw [leave_button_eq_notMember db lid uid lobby hget hst hm]
        | true =>
          rw [leave_button_eq_removed db lid uid lobby hget hst hm] at hne
          exact absurd rfl hne
      · rw [leave_button_eq_notOpen db lid uid lobby hget hst]
  · intro hrm
    cases hget : db_get_lobby db lid with
    | none =>
      rw [leave_button_eq_noLobby db lid uid hget] at hrm
      exact absurd hrm (by simp)
    | some lobby =>
      by_cases hst : lobby.status = "open"
      · cases hm : db_is_member db lid uid with
        | false =>
          rw [leave_button_eq_notMember db lid uid lobby hget hst hm] at hrm
          exact absurd hrm (by simp)
        | true =>
          rw [leave_button_eq_removed db lid uid lobby hget hst hm]
          refine ⟨?_, rfl, rfl⟩
          unfold lobby_status_of
          rw [hget]
          simp [hst]
      · rw [leave_button_eq_notOpen db lid uid lobby hget hst] at hrm
        exact absurd hrm (by simp)

/-- Witness for C6: leaving the closed variant of `exDBone` is rejected with
a message and no change; leaving while open removes user 5's row. -/
theorem C6_leave_only_open_witness :
    leave_button ⟨[{ exLobby with status := "closed" }], exDBone.members⟩ 1 5
      = (⟨[{ exLobby with status := "closed" }], exDBone.members⟩, .notOpen)
    ∧ (leave_message .notOpen).isSome = true
    ∧ (leave_button exDBone 1 5).1.members = [] := by
  have h1 := (C6_leave_only_open
      ⟨[{ exLobby with status := "closed" }], exDBone.members⟩ 1 5).1
      { exLobby with status := "closed" } (by decide) (by decide)
  have h2 := (C6_leave_only_open exDBone 1 5).2.2 (by decide)
  exact ⟨h1.1, h1.2, h2.2.1.trans (by decide)⟩

/-- Claim C7: close, start and cancel are rejected with an ephemeral message
and without any store mutation when the actor is not the lobby host, while a
join or leave by an arbitrary non-host user succeeds when its own
status/membership/capacity conditions hold. -/
theorem C7_host_only (db : DB) (lid actor uid : Nat) (now : String) (lobby : Lobby) :
    (db_get_lobby db lid = some lobby → actor ≠ lobby.host_id →
       close_button db lid actor = (db, .notHost)
       ∧ start_button db lid actor = (db, .notHost)
       ∧ cancel_button db lid actor = (db, .notHost)
       ∧ (close_message .notHost).isSome = true
       ∧ (start_message .notHost).isSome = true
       ∧ (cancel_message .notHost).isSome = true)
    ∧ (db_get_lobby db lid = some lobby → lobby.status = "open" →
       lobby.map_name ≠ "소환사의 협곡" → db_is_member db lid uid = false →
       db_count_members db lid + 1 ≤ lobby.capacity →
       (join_button db lid uid now).2 = .joined (db_count_members db lid + 1))
    ∧ (db_get_lobby db lid = some lobby → lobby.status = "open" →
       db_is_member db lid uid = true →
       (leave_button db lid uid).2 = .removed) := by
  refine ⟨?_, ?_, ?_⟩
  · intro hget hne
    have hh : is_host actor lobby = false := by simp [is_host, hne]
    exact ⟨close_button_eq_notHost db lid actor lobby hget hh,
           start_button_eq_notHost db lid actor lobby hget hh,
           cancel_button_eq_notHost db lid actor lobby hget hh, rfl, rfl, rfl⟩
  · intro hget hst hmap hm hcap
    by_cases hfill : lobby.capacity ≤ db_count_members db lid + 1
    · rw [join_button_eq_added_close db lid uid now lobby hget hst hmap hm
        (by omega) hfill]
    · rw [join_button_eq_added_open db lid uid now lobby hget hst hmap hm
        (by omega)]
  · intro hget hst hm
    rw [leave_button_eq_removed db lid uid lobby hget hst hm]

/-- Witness for C7: user 99 (not the host 10) cannot close/start/cancel
`exDB`, but does join it. -/
theorem C7_host_only_witness :
    close_button exDB 1 99 = (exDB, .notHost)
    ∧ start_button exDB 1 99 = (exDB, .notHost)
    ∧ cancel_button exDB 1 99 = (exDB, .notHost)
    ∧ (join_button exDB 1 99 "t").2 = .joined 1
    ∧ (leave_button exDBone 1 5).2 = .removed := by
  have h := C7_host_only exDB 1 99 99 "t" exLobby
  have h2 := C7_host_only exDBone 1 99 5 "t" exLobby
  obtain ⟨ha, hb, hc, _, _, _⟩ := h.1 (by decide) (by decide)
  refine ⟨ha, hb, hc, ?_, h2.2.2 (by decide) (by decide) (by decide)⟩
  have hj := h.2.1 (by decide) (by decide) (by decide) (by decide) (by decide)
  exact hj.trans (by decide)

/-- Claim C8: a host cancel rewrites only the status field of the target
lobby row to `cancelled`: every membership row survives, every other lobby
row is untouched, and all other fields of the cancelled lobby keep their
values. -/
theorem C8_cancel_frame (db : DB) (lid actor : Nat) (lobby : Lobby)
    (hget : db_get_lobby db lid = some lobby) (hh : actor = lobby.host_id) :
    cancel_button db lid actor = (db_update_lobby_status db lid "cancelled", .done)
    ∧ (cancel_button db lid actor).1.members = db.members
    ∧ (cancel_button db lid actor).1.lobbies
        = db.lobbies.map (fun l =>
            if l.lobby_message_id == lid then { l with status := "cancelled" }
            else l) := by
  have he := cancel_button_eq_done db lid actor lobby hget (by simp [is_host, hh])
  refine ⟨he, ?_, ?_⟩ <;> rw [he] <;> rfl

/-- Witness for C8: host 10 cancels the full lobby; both member rows stay. -/
theorem C8_cancel_frame_witness :
    cancel_button exDBfull 1 10 = (db_update_lobby_status exDBfull 1 "cancelled", .done)
    ∧ (cancel_button exDBfull 1 10).1.members = exDBfull.members := by
  have h := C8_cancel_frame exDBfull 1 10 exLobby (by decide) (by decide)
  exact ⟨h.1, h.2.1⟩

/-- Counterexample to claim C2 as stated: on a `cancelled` lobby the host's
start action is not rejected — the only status guard in `start_button` is
`status == "started"` — so the store moves along the edge
cancelled → started, which is not among the permitted transitions. -/
theorem C2_counterexample :
    lobby_status_of exDBcancelled 1 = some "cancelled"
    ∧ (start_button exDBcancelled 1 10).2 = .done
    ∧ lobby_status_of (start_button exDBcancelled 1 10).1 1 = some "started" := by
  refine ⟨by decide, by decide, by decide⟩

/-- Claim C2 (amended): join auto-close and close only perform open → closed;
cancel sets the status to `cancelled` from any current status; start is
rejected only when the status is already `started`, so besides
open → started and closed → started it also performs cancelled → started;
every rejected action leaves the store unchanged, and leave never touches
the lobby table. -/
theorem C2_status_machine (db : DB) (lid uid actor : Nat) (now : String)
    (tier : Option String) (pos : Option (String × String)) :
    (lobby_status_of (join_button db lid uid now).1 lid = lobby_status_of db lid
      ∨ (lobby_status_of db lid = some "open"
         ∧ lobby_status_of (join_button db lid uid now).1 lid = some "closed"))
    ∧ (lobby_status_of (join_selection_confirm db lid uid tier pos now).1 lid
          = lobby_status_of db lid
      ∨ (lobby_status_of db lid = some "open"
         ∧ lobby_status_of (join_selection_confirm db lid uid tier pos now).1 lid
             = some "closed"))
    ∧ ((leave_button db lid uid).1.lobbies = db.lobbies)
    ∧ ((close_button db lid actor).2 ≠ .done → (close_button db lid actor).1 = db)
    ∧ ((close_button db lid actor).2 = .done →
        lobby_status_of db lid = some "open"
        ∧ lobby_status_of (close_button db lid actor).1 lid = some "closed")
    ∧ ((start_button db lid actor).2 ≠ .done → (start_button db lid actor).1 = db)
    ∧ ((start_button db lid actor).2 = .done →
        lobby_status_of db lid ≠ some "started"
        ∧ lobby_status_of (start_button db lid actor).1 lid = some "started")
    ∧ ((cancel_button db lid actor).2 ≠ .done → (cancel_button db lid actor).1 = db)
    ∧ ((cancel_button db lid actor).2 = .done →
        lobby_status_of (cancel_button db lid actor).1 lid = some "cancelled") := by
  refine ⟨?_, ?_, ?_, ?_, ?_, ?_, ?_, ?_, ?_⟩
  · -- join_button status change
    cases hget : db_get_lobby db lid with
    | none => rw [join_button_eq_noLobby db lid uid now hget]; exact Or.inl rfl
    | some lobby =>
      by_cases hst : lobby.status = "open"
      · by_cases hmap : lobby.map_name = "소환사의 협곡"
        · rw [join_button_eq_selection db lid uid now lobby hget hst hmap]
          exact Or.inl rfl
        · cases hm : db_is_member db lid uid with
          | true =>
            rw [join_button_eq_already db lid uid now lobby hget hst hmap hm]
            exact Or.inl rfl
          | false =>
            by_cases hc : lobby.capacity ≤ db_count_members db lid
            · rw [join_button_eq_full db lid uid now lobby hget hst hmap hm hc]
              exact Or.inl rfl
            · by_cases hfill : lobby.capacity ≤ db_count_members db lid + 1
              · rw [join_button_eq_added_close db lid uid now lobby hget hst hmap hm
                  (by omega) hfill]
                refine Or.inr ⟨?_, ?_⟩
                · unfold lobby_status_of; rw [hget]; simp [hst]
                · unfold lobby_status_of
                  rw [get_update_status_self]
                  rw [show db_get_lobby
                      ⟨db.lobbies, db.members ++ [⟨lid, uid, none, none, none, now⟩]⟩ lid
                      = db_get_lobby db lid from rfl, hget]
                  simp
              · rw [join_button_eq_added_open db lid uid now lobby hget hst hmap hm
                  (by omega)]
                exact Or.inl rfl
      · rw [join_button_eq_notOpen db lid uid now lobby hget hst]; exact Or.inl rfl
  · -- join_selection_confirm status change
    cases hget : db_get_lobby db lid with
    | none => rw [confirm_eq_noLobby db lid uid tier pos now hget]; exact Or.inl rfl
    | some lobby =>
      by_cases hst : lobby.status = "open"
      · cases tier with
        | none =>
          rw [confirm_eq_notReady_tier db lid uid pos now lobby hget hst]
          exact Or.inl rfl
        | some t =>
          cases pos with
          | none =>
            rw [confirm_eq_notReady_pos db lid uid t now lobby hget hst]
            exact Or.inl rfl
          | some p =>
            cases hm : db_is_member db lid uid with
            | true =>
              rw [confirm_eq_already db lid uid t p now lobby hget hst hm]
              exact Or.inl rfl
            | false =>
              by_cases hc : lobby.capacity ≤ db_count_members db lid
              · rw [confirm_eq_full db lid uid t p now lobby hget hst hm hc]
                exact Or.inl rfl
              · by_cases hfill : lobby.capacity ≤ db_count_members db lid + 1
                · rw [confirm_eq_added_close db lid uid t p now lobby hget hst hm
                    (by omega) hfill]
                  refine Or.inr ⟨?_, ?_⟩
                  · unfold lobby_status_of; rw [hget]; simp [hst]
                  · unfold lobby_status_of
                    rw [get_update_status_self]
                    rw [show db_get_lobby
                        ⟨db.lobbies, db.members ++
                          [⟨lid, uid, some p.1, some p.2, some t, now⟩]⟩ lid
                        = db_get_lobby db lid from rfl, hget]
                    simp
                · rw [confirm_eq_added_open db lid uid t p now lobby hget hst hm
                    (by omega)]
                  exact Or.inl rfl
      · rw [confirm_eq_notOpen db lid uid tier pos now lobby hget hst]
        exact Or.inl rfl
  · -- leave never touches the lobby table
    cases hget : db_get_lobby db lid with
    | none => rw [leave_button_eq_noLobby db lid uid hget]
    | some lobby =>
      by_cases hst : lobby.status = "open"
      · cases hm : db_is_member db lid uid with
        | false => rw [leave_button_eq_notMember db lid uid lobby hget hst hm]
        | true => rw [leave_button_eq_removed db lid uid lobby hget hst hm]; rfl
      · rw [leave_button_eq_notOpen db lid uid lobby hget hst]
  · -- rejected close leaves the store unchanged
    intro hne
    cases hget : db_get_lobby db lid with
    | none => rw [close_button_eq_noLobby db lid actor hget]
    | some lobby =>
      cases hh : is_host actor lobby with
      | false => rw [close_button_eq_notHost db lid actor lobby hget hh]
      | true =>
        by_cases hst : lobby.status = "open"
        · rw [close_button_eq_done db lid actor lobby hget hh hst] at hne
          exact absurd rfl hne
        · rw [close_button_eq_wrongStatus db lid actor lobby hget hh hst]
  · -- a completed close is an open → closed edge
    intro hdone
    cases hget : db_get_lobby db lid with
    | none =>
      rw [close_button_eq_noLobby db lid actor hget] at hdone
      exact absurd hdone (by simp)
    | some lobby =>
      cases hh : is_host actor lobby with
      | false =>
        rw [close_button_eq_notHost db lid actor lobby hget hh] at hdone
        exact absurd hdone (by simp)
      | true =>
        by_cases hst : lobby.status = "open"
        · rw [close_button_eq_done db lid actor lobby hget hh hst]
          refine ⟨?_, ?_⟩
          · unfold lobby_status_of; rw [hget]; simp [hst]
          · unfold lobby_status_of
            rw [get_update_status_self, hget]
            simp
        · rw [close_button_eq_wrongStatus db lid actor lobby hget hh hst] at hdone
          exact absurd hdone (by simp)
  · -- rejected start leaves the store unchanged
    intro hne
    cases hget : db_get_lobby db lid with
    | none => rw [start_button_eq_noLobby db lid actor hget]
    | some lobby =>
      cases hh : is_host actor lobby with
      | false => rw [start_button_eq_notHost db lid actor lobby hget hh]
      | true =>
        by_cases hst : lobby.status = "started"
        · rw [start_button_eq_wrongStatus db lid actor lobby hget hh hst]
        · rw [start_button_eq_done db lid actor lobby hget hh hst] at hne
          exact absurd rfl hne
  · -- a completed start comes from any status other than started
    intro hdone
    cases hget : db_get_lobby db lid with
    | none =>
      rw [start_button_eq_noLobby db lid actor hget] at hdone
      exact absurd hdone (by simp)
    | some lobby =>
      cases hh : is_host actor lobby with
      | false =>
        rw [start_button_eq_notHost db lid actor lobby hget hh] at hdone
        exact absurd hdone (by simp)
      | true =>
        by_cases hst : lobby.status = "started"
        · rw [start_button_eq_wrongStatus db lid actor lobby hget hh hst] at hdone
          exact absurd hdone (by simp)
        · rw [start_button_eq_done db lid actor lobby hget hh hst]
          refine ⟨?_, ?_⟩
          · unfold lobby_status_of
            rw [hget]
            simp
            exact hst
          · unfold lobby_status_of
            rw [get_update_status_self, hget]
            simp
  · -- rejected cancel leaves the store unchanged
    intro hne
    cases hget : db_get_lobby db lid with
    | none => rw [cancel_button_eq_noLobby db lid actor hget]
    | some lobby =>
      cases hh : is_host actor lobby with
      | false => rw [cancel_button_eq_notHost db lid actor lobby hget hh]
      | true =>
        rw [cancel_button_eq_done db lid actor lobby hget hh] at hne
        exact absurd rfl hne
  · -- a completed cancel ends in status cancelled
    intro hdone
    cases hget : db_get_lobby db lid with
    | none =>
      rw [cancel_button_eq_noLobby db lid actor hget] at hdone
      exact absurd hdone (by simp)
    | some lobby =>
      cases hh : is_host actor lobby with
      | false =>
        rw [cancel_button_eq_notHost db lid actor lobby hget hh] at hdone
        exact absurd hdone (by simp)
      | true =>
        rw [cancel_button_eq_done db lid actor lobby hget hh]
        unfold lobby_status_of
        rw [get_update_status_self, hget]
        simp

/-- Witness for the amended C2 at concrete stores: a host close of `exDB`
is an open → closed edge, the cancelled-lobby start ends started, and a
non-host cancel changes nothing. -/
theorem C2_status_machine_witness :
    (lobby_status_of exDB 1 = some "open"
      ∧ lobby_status_of (close_button exDB 1 10).1 1 = some "closed")
    ∧ lobby_status_of (start_button exDBcancelled 1 10).1 1 = some "started"
    ∧ (cancel_button exDB 1 99).1 = exDB := by
  have h1 := C2_status_machine exDB 1 7 10 "t" none none
  have h2 := C2_status_machine exDBcancelled 1 7 10 "t" none none
  have h3 := C2_status_machine exDB 1 7 99 "t" none none
  exact ⟨h1.2.2.2.2.1 (by decide),
         (h2.2.2.2.2.2.2.1 (by decide)).2,
         h3.2.2.2.2.2.2.2.1 (by decide)⟩

/-- Claim C3: when a join attempt (either join path) returns `added` with the
resulting member count equal to the lobby's capacity, the handler has set the
stored status to `closed` before completing; and the property "membership
count at capacity implies status is not open" is preserved by every store
mutation of the program, so no reachable state after the triggering join has
the count at capacity while the status is still `open`. -/
theorem C3_autoclose_on_capacity :
    (∀ (db : DB) (lid uid : Nat) (now : String) (lobby : Lobby) (n : Nat),
       db_get_lobby db lid = some lobby →
       (join_button db lid uid now).2 = .joined n →
       db_count_members (join_button db lid uid now).1 lid = n
       ∧ (n = lobby.capacity →
           lobby_status_of (join_button db lid uid now).1 lid = some "closed"))
    ∧ (∀ (db : DB) (lid uid : Nat) (tier : Option String)
         (pos : Option (String × String)) (now : String) (lobby : Lobby) (n : Nat),
       db_get_lobby db lid = some lobby →
       (join_selection_confirm db lid uid tier pos now).2 = .joined n →
       db_count_members (join_selection_confirm db lid uid tier pos now).1 lid = n
       ∧ (n = lobby.capacity →
           lobby_status_of (join_selection_confirm db lid uid tier pos now).1 lid
             = some "closed"))
    ∧ (∀ db db2 : DB, CapacityClosedInv db → Step db db2 → CapacityClosedInv db2) := by
  refine ⟨?_, ?_, inv_step⟩
  · intro db lid uid now lobby n hget hj
    obtain ⟨ha, hb⟩ := join_button_joined_spec db lid uid now lobby n hget hj
    exact ⟨ha, fun he => hb (le_of_eq he.symm)⟩
  · intro db lid uid tier pos now lobby n hget hj
    obtain ⟨ha, hb⟩ := confirm_joined_spec db lid uid tier pos now lobby n hget hj
    exact ⟨ha, fun he => hb (le_of_eq he.symm)⟩

/-- Witness for C3: user 7 joins `exDBone` (one of two seats taken), the
count reaches the capacity 2 and the stored status is `closed`; and one
`Step` out of `exDBone` preserves the invariant. -/
theorem C3_autoclose_on_capacity_witness :
    db_count_members (join_button exDBone 1 7 "t").1 1 = 2
    ∧ lobby_status_of (join_button exDBone 1 7 "t").1 1 = some "closed"
    ∧ CapacityClosedInv (join_button exDBone 1 7 "t").1 := by
  have h := C3_autoclose_on_capacity
  obtain ⟨ha, hb⟩ := h.1 exDBone 1 7 "t" exLobby 2 (by decide) (by decide)
  refine ⟨ha, hb (by decide), ?_⟩
  refine h.2.2 exDBone _ ?_ (Step.join exDBone 1 7 "t")
  intro lid lobby hget hcap
  have hmem : lobby ∈ exDBone.lobbies := List.mem_of_find?_eq_some hget
  have he : lobby = exLobby := by
    simpa [exDBone] using hmem
  rw [he] at hcap ⊢
  have hc : db_count_members exDBone lid ≤ 1 := by
    have : exDBone.members.length = 1 := by decide
    calc db_count_members exDBone lid
        ≤ exDBone.members.length := List.length_filter_le _ _
      _ = 1 := this
  exact absurd hcap (by simp [exLobby]; omega)

/-- Claim C4: after the bulk reset, every lobby row that existed before has
status `cancelled` (all other fields kept) and the membership table is empty.
The early return of `reset_all_lobbies` skips the member purge only when the
lobby table is empty, so referential integrity of the membership rows (which
the join guard maintains: members are only inserted for an existing lobby,
and lobbies are never deleted) is assumed. -/
theorem C4_reset (db : DB) (h : db.members ≠ [] → db.lobbies ≠ []) :
    (reset_all_lobbies_db db).members = []
    ∧ (reset_all_lobbies_db db).lobbies
        = db.lobbies.map (fun l => { l with status := "cancelled" }) := by
  by_cases hl : db.lobbies = []
  · have hm : db.members = [] := by
      by_cases hm2 : db.members = []
      · exact hm2
      · exact absurd hl (h hm2)
    rw [reset_db_empty db hl, hl, hm]
    simp
  · exact reset_db_spec db hl

/-- Witness for C4: resetting the full lobby store empties the member table
and cancels the lobby. -/
theorem C4_reset_witness :
    (reset_all_lobbies_db exDBfull).members = []
    ∧ (reset_all_lobbies_db exDBfull).lobbies
        = [{ exLobby with status := "cancelled" }] := by
  have h := C4_reset exDBfull (by intro _; decide)
  exact ⟨h.1, h.2.trans (by decide)⟩

theorem active_status_ne_cancelled (l : Lobby)
    (h : (l.status == "open" || l.status == "closed" || l.status == "started") = true) :
    l.status ≠ "cancelled" := by
  simp only [Bool.or_eq_true, beq_iff_eq] at h
  rcases h with (h | h) | h <;> rw [h] <;> simp

theorem restore_one_active (fetchOk editOk : Nat → Bool) (l : Lobby)
    (hne : l.status ≠ "cancelled")
    (hf : fetchOk l.lobby_message_id = true) (he : editOk l.lobby_message_id = true) :
    restore_one fetchOk editOk l = .refreshedWithView := by
  unfold restore_one fetch_lobby_message edit_message
  rw [if_pos hf]
  simp [hne, he]

/-- Counterexample to claim C9 as stated: `restore_lobbies_on_start` iterates
over `db_list_active_lobbies`, which excludes `cancelled` rows, so a store
whose only lobby is cancelled yields an empty reconciliation worklist even
with every platform call succeeding — the cancelled lobby's message is never
refreshed (the cancelled branch inside the loop is dead code). -/
theorem C9_counterexample :
    lobby_status_of exDBcancelled 1 = some "cancelled"
    ∧ restore_lobbies_on_start (fun _ => true) (fun _ => true) exDBcancelled = [] := by
  exact ⟨by decide, by decide⟩

/-- Claim C9 (amended): on restart reconciliation, every lobby with status in
open/closed/started appears in the worklist, and is refreshed with the
interactive view re-attached whenever its message lookup and edit succeed;
lobbies with status `cancelled` are excluded from the worklist entirely and
are never refreshed. -/
theorem C9_restore (db : DB) (fetchOk editOk : Nat → Bool) :
    (∀ l ∈ db.lobbies,
       (l.status = "open" ∨ l.status = "closed" ∨ l.status = "started") →
       ((l.lobby_message_id, restore_one fetchOk editOk l)
           ∈ restore_lobbies_on_start fetchOk editOk db
        ∧ (fetchOk l.lobby_message_id = true → editOk l.lobby_message_id = true →
            restore_one fetchOk editOk l = .refreshedWithView)))
    ∧ (∀ p ∈ restore_lobbies_on_start fetchOk editOk db,
        ∃ l ∈ db.lobbies, p.1 = l.lobby_message_id
          ∧ p.2 = restore_one fetchOk editOk l ∧ l.status ≠ "cancelled") := by
  constructor
  · intro l hl hst
    have hpred : (l.status == "open" || l.status == "closed"
        || l.status == "started") = true := by
      rcases hst with h | h | h <;> simp [h]
    have hact : l ∈ db_list_active_lobbies db :=
      List.mem_filter.mpr ⟨hl, hpred⟩
    refine ⟨List.mem_map_of_mem _ hact, ?_⟩
    intro hf he
    refine restore_one_active fetchOk editOk l ?_ hf he
    exact active_status_ne_cancelled l hpred
  · intro p hp
    obtain ⟨l, hlf, he⟩ := List.mem_map.mp hp
    obtain ⟨hl, hpred⟩ := List.mem_filter.mp hlf
    exact ⟨l, hl, by rw [← he], by rw [← he],
           active_status_ne_cancelled l hpred⟩

/-- Witness for the amended C9: the open lobby of `exDBone` is refreshed with
its view re-attached when the platform calls succeed. -/
theorem C9_restore_witness :
    (1, RestoreResult.refreshedWithView)
      ∈ restore_lobbies_on_start (fun _ => true) (fun _ => true) exDBone
    ∧ restore_one (fun _ => true) (fun _ => true) exLobby
        = .refreshedWithView := by
  have h := (C9_restore exDBone (fun _ => true) (fun _ => true)).1 exLobby
    (by decide) (Or.inl (by decide))
  have he : restore_one (fun _ => true) (fun _ => true) exLobby
      = .refreshedWithView := h.2 rfl rfl
  exact ⟨by rw [← he] at *; exact h.1, he⟩

/-- Claim C10: the bulk-reset fan-out and the restart reconciliation isolate
platform failures per lobby: every lobby of the respective worklist yields
exactly one entry no matter which fetches or edits fail, a lobby is refreshed
exactly when its own fetch and edit succeed, and no failure aborts the batch
(both loops are total functions of the failure oracles). -/
theorem C10_failure_isolation (db : DB) (fetchOk editOk : Nat → Bool) :
    (reset_message_updates fetchOk editOk (db_list_all_lobbies db)).length
        = (db_list_all_lobbies db).length
    ∧ (∀ l ∈ db_list_all_lobbies db,
        (l.lobby_message_id, update_single_lobby fetchOk editOk l)
          ∈ reset_message_updates fetchOk editOk (db_list_all_lobbies db))
    ∧ (∀ l : Lobby, update_single_lobby fetchOk editOk l
        = (fetchOk l.lobby_message_id && editOk l.lobby_message_id))
    ∧ (restore_lobbies_on_start fetchOk editOk db).length
        = (db_list_active_lobbies db).length
    ∧ (∀ l ∈ db_list_active_lobbies db,
        (l.lobby_message_id, restore_one fetchOk editOk l)
          ∈ restore_lobbies_on_start fetchOk editOk db)
    ∧ (∀ l ∈ db_list_active_lobbies db,
        fetchOk l.lobby_message_id = true → editOk l.lobby_message_id = true →
        restore_one fetchOk editOk l = .refreshedWithView) := by
  refine ⟨List.length_map _ _, ?_, ?_, List.length_map _ _, ?_, ?_⟩
  · intro l hl
    exact List.mem_map_of_mem _ hl
  · intro l
    unfold update_single_lobby fetch_lobby_message edit_message
    cases hf : fetchOk l.lobby_message_id with
    | false => simp [hf]
    | true =>
      cases he : editOk l.lobby_message_id with
      | false => simp [hf, he]
      | true => simp [hf, he]
  · intro l hl
    exact List.mem_map_of_mem _ hl
  · intro l hl hf he
    obtain ⟨_, hpred⟩ := List.mem_filter.mp hl
    exact restore_one_active fetchOk editOk l
      (active_status_ne_cancelled l hpred) hf he

/-- Witness for C10: over `exDBone`, with the fetch failing for message id 1,
the reset fan-out still produces one entry and reports the lobby as not
refreshed; with everything succeeding the lobby is refreshed. -/
theorem C10_failure_isolation_witness :
    (reset_message_updates (fun _ => false) (fun _ => true)
        (db_list_all_lobbies exDBone)).length = 1
    ∧ update_single_lobby (fun _ => false) (fun _ => true) exLobby = false
    ∧ update_single_lobby (fun _ => true) (fun _ => true) exLobby = true
    ∧ restore_one (fun _ => true) (fun _ => true) exLobby = .refreshedWithView := by
  have h1 := C10_failure_isolation exDBone (fun _ => false) (fun _ => true)
  have h2 := C10_failure_isolation exDBone (fun _ => true) (fun _ => true)
  refine ⟨(h1.1).trans (by decide), (h1.2.2.1 exLobby).trans (by decide),
          (h2.2.2.1 exLobby).trans (by decide), ?_⟩
  exact h2.2.2.2.2.2 exLobby (by decide) rfl rfl
